import Mathlib

/-
  Verification of the CI workflow definition (src/unnamed/part_000, a GitHub
  Actions workflow named "Machine Learning Unit Tests") and of the tutorial
  notebook (src/docs/tutorials/07_pegasos_qsvc.ipynb) of the
  qiskit-machine-learning repository.

  The workflow YAML is embedded shallowly: triggers, concurrency settings,
  jobs, build matrices, steps with their conditions, artifact names and
  scripts are Lean data, and the hosted-runner semantics that the claims
  depend on (job scheduling from needs lists, step-level if conditions with
  the implicit success() rule, branch glob filters, cron schedules, matrix
  expansion, artifact naming, shell exit status of cmd-or-true) are
  executable Lean functions over that data.
-/

namespace CI

/-! ## Basic utilities -/

/-- Natural number denoted by a list of decimal digit characters. -/
def digitsToNat (l : List Char) : Nat :=
  l.foldl (fun n c => 10 * n + (c.toNat - 48)) 0

/-- A decimal literal, kept exact: integer part, fraction digits read as a
    natural number, and the count of fraction digits.  The YAML literal 3.9
    is represented as integer part 3, fraction 9, one fraction digit; its
    numeric value is ip + fp / 10 ^ fl. -/
structure DecNum where
  ip : Nat
  fp : Nat
  fl : Nat
deriving DecidableEq

/-- Numerator of the decimal over the denominator 10 ^ fl. -/
def DecNum.scaled (n : DecNum) : Nat := n.ip * 10 ^ n.fl + n.fp

/-- Exact numeric equality of two decimals, by cross multiplication. -/
def DecNum.numEq (a b : DecNum) : Bool :=
  a.scaled * 10 ^ b.fl == b.scaled * 10 ^ a.fl

/-- Read a decimal string such as "3.9" or "3.10" as a number.  This is the
    coercion GitHub Actions applies when a string is compared against a
    number with the loose equality operator: "3.10" denotes 3.1. -/
def strToDecNum (s : String) : DecNum :=
  match s.data.splitOn '.' with
  | [i] => ⟨digitsToNat i, 0, 0⟩
  | [i, f] => ⟨digitsToNat i, digitsToNat f, f.length⟩
  | _ => ⟨0, 0, 0⟩

/-- Fuel-bounded glob matching for GitHub branch filter patterns: a single
    star matches any run of characters except the path separator, a double
    star matches any run of characters including the separator, and every
    other character matches itself.  The fuel only bounds recursion depth;
    globMatch below supplies enough fuel for full evaluation. -/
def globAux : Nat → List Char → List Char → Bool
  | 0, _, _ => false
  | _ + 1, [], s => s.isEmpty
  | fuel + 1, '*' :: '*' :: ps, s =>
      globAux fuel ps s ||
        (match s with
         | [] => false
         | _ :: s2 => globAux fuel ('*' :: '*' :: ps) s2)
  | fuel + 1, '*' :: ps, s =>
      globAux fuel ps s ||
        (match s with
         | [] => false
         | c :: s2 => if c == '/' then false else globAux fuel ('*' :: ps) s2)
  | fuel + 1, p :: ps, s =>
      match s with
      | [] => false
      | c :: s2 => p == c && globAux fuel ps s2

/-- Whether the branch name b matches the branch filter pattern pat. -/
def globMatch (pat b : String) : Bool :=
  globAux (pat.data.length + b.data.length + 1) pat.data b.data

/-! ## Workflow abstract syntax -/

/-- The four jobs declared by the workflow, in source order. -/
inductive JobId
  | Checks
  | MachineLearning
  | Tutorials
  | Deprecation_Messages_and_Coverage
deriving DecidableEq

/-- One matrix combination: an operating system and a python version, both
    as the strings they render to inside expression interpolation. -/
structure Combo where
  os : String
  pv : String
deriving DecidableEq

/-- A job build matrix: the os axis, the python-version axis, and the
    include list (extra combinations).  Versions are recorded as the strings
    they render to: the YAML numbers 3.9, 3.11, 3.12, 3.13 render as the
    corresponding strings, and 3.10 is written as a quoted string in the
    source precisely so that it renders as "3.10" and not "3.1". -/
structure JobMatrix where
  oses : List String
  pvs : List String
  extra : List Combo
deriving DecidableEq

/-- Matrix expansion: the Cartesian product of the axes, followed by every
    include entry that does not coincide with a product combination (the
    hosted runner adds such entries as new combinations). -/
def JobMatrix.combos (m : JobMatrix) : List Combo :=
  let base := m.oses.flatMap (fun o => m.pvs.map (fun v => ⟨o, v⟩))
  base ++ m.extra.filter (fun c => !base.contains c)

/-- One fragment of an interpolated string: a literal piece, or a reference
    to the os or python-version value of the current matrix combination. -/
inductive NamePart
  | lit (s : String)
  | matrixOs
  | matrixPv
deriving DecidableEq

/-- Render an interpolated string for a given matrix combination. -/
def renderName (c : Combo) (ps : List NamePart) : String :=
  ps.foldl
    (fun acc p =>
      acc ++ match p with
             | .lit s => s
             | .matrixOs => c.os
             | .matrixPv => c.pv) ""

/-- Collapse an interpolated string that consists of literal pieces only;
    none when it references the matrix. -/
def litName (ps : List NamePart) : Option String :=
  ps.foldr
    (fun p acc =>
      match p, acc with
      | .lit s, some r => some (s ++ r)
      | _, _ => none) (some "")

/-- The expression contexts the workflow reads: fields of the github
    context that appear in this file. -/
structure GhCtx where
  repository : String
  ref : String
  head_ref : String
  base_ref : String
  workflow : String
deriving DecidableEq

/-- Whether the list of characters p is an initial segment of l. -/
def charsStart : List Char → List Char → Bool
  | [], _ => true
  | _ :: _, [] => false
  | p :: ps, c :: cs => p == c && charsStart ps cs

/-- The startsWith function of the expression language. -/
def strStarts (s pat : String) : Bool := charsStart pat.data s.data

/-- Step-level if expressions, covering exactly the forms used in the
    source file. -/
inductive BExpr
  | not (e : BExpr)
  | and (a b : BExpr)
  | cancelledFn
  | startsWithRef (s : String)
  | startsWithBaseRef (s : String)
  | osEq (s : String)
  | pvEqNum (n : DecNum)
deriving DecidableEq

/-- Evaluate a step condition in a github context, for a matrix combination
    and the cancellation status of the run.  The loose equality of
    matrix.python-version against a numeric literal coerces the rendered
    string to a number. -/
def BExpr.eval (g : GhCtx) (c : Combo) (cancelled : Bool) : BExpr → Bool
  | .not e => !(e.eval g c cancelled)
  | .and a b => a.eval g c cancelled && b.eval g c cancelled
  | .cancelledFn => cancelled
  | .startsWithRef s => strStarts g.ref s
  | .startsWithBaseRef s => strStarts g.base_ref s
  | .osEq s => c.os == s
  | .pvEqNum n => (strToDecNum c.pv).numEq n

/-- Whether the expression contains a job-status check function.  When a
    step condition contains none, the runner implicitly conjoins success(). -/
def BExpr.hasStatusCheck : BExpr → Bool
  | .not e => e.hasStatusCheck
  | .and a b => a.hasStatusCheck || b.hasStatusCheck
  | .cancelledFn => true
  | _ => false

/-- A workflow step: its display name, the action it uses, its script lines,
    its if condition, and for artifact steps the artifact name and path.
    Script text is recorded verbatim for the steps the specification claims
    mention; purely incidental scripts are left as none. -/
structure Step where
  name : Option (List NamePart) := none
  uses : Option String := none
  runText : Option (List String) := none
  condIf : Option BExpr := none
  artName : Option (List NamePart) := none
  artPath : Option String := none
deriving DecidableEq

/-- Whether a step executes, per runner semantics: with no if condition the
    step runs when no earlier step failed and the run is not cancelled; with
    an if condition the condition decides, except that a condition with no
    status check function gets success() implicitly conjoined. -/
def stepRuns (g : GhCtx) (c : Combo) (priorFailed cancelled : Bool) (st : Step) : Bool :=
  match st.condIf with
  | none => !priorFailed && !cancelled
  | some e => (e.hasStatusCheck || (!priorFailed && !cancelled)) && e.eval g c cancelled

/-- A job: its needs list, its build matrix, and its steps. -/
structure Job where
  needs : List JobId := []
  matrix : JobMatrix
  steps : List Step
deriving DecidableEq

/-- The trigger section of the workflow: branch filters for push and
    pull_request, and the cron schedules. -/
structure OnTriggers where
  pushBranches : List String
  prBranches : List String
  schedules : List String
deriving DecidableEq

/-- One concurrency group fragment: a literal piece or a github context
    field. -/
inductive GroupPart
  | lit (s : String)
  | repository
  | ref
  | head_ref
  | workflow
deriving DecidableEq

/-- Render the concurrency group string for a github context. -/
def renderGroup (g : GhCtx) (ps : List GroupPart) : String :=
  ps.foldl
    (fun acc p =>
      acc ++ match p with
             | .lit s => s
             | .repository => g.repository
             | .ref => g.ref
             | .head_ref => g.head_ref
             | .workflow => g.workflow) ""

/-- The concurrency section: the group expression and cancel-in-progress. -/
structure Concurrency where
  group : List GroupPart
  cancelInProgress : Bool
deriving DecidableEq

/-- A whole workflow. -/
structure Workflow where
  name : String
  onTrig : OnTriggers
  concurrency : Concurrency
  jobs : JobId → Job

/-! ## Cron and events -/

/-- A wall-clock point as cron sees it. -/
structure TimePoint where
  minute : Nat
  hour : Nat
  dom : Nat
  month : Nat
  dow : Nat
deriving DecidableEq

/-- One cron field: a star or a single numeric value, the only forms the
    source uses. -/
inductive CronField
  | star
  | exact (n : Nat)
deriving DecidableEq

/-- A five-field cron entry. -/
structure Cron where
  minute : CronField
  hour : CronField
  dom : CronField
  month : CronField
  dow : CronField
deriving DecidableEq

/-- Parse one cron field. -/
def parseCronField (l : List Char) : CronField :=
  if l == ['*'] then .star else .exact (digitsToNat l)

/-- Parse a five-field cron string. -/
def parseCron (s : String) : Option Cron :=
  match s.data.splitOn ' ' with
  | [a, b, c, d, e] =>
      some ⟨parseCronField a, parseCronField b, parseCronField c,
            parseCronField d, parseCronField e⟩
  | _ => none

/-- Whether a cron field accepts a value. -/
def fieldMatches (f : CronField) (v : Nat) : Bool :=
  match f with
  | .star => true
  | .exact n => v == n

/-- Whether a time point matches a cron entry.  When both the day-of-month
    and the day-of-week fields are restricted, cron fires when either
    matches; otherwise the fields are conjoined. -/
def cronMatches (cr : Cron) (t : TimePoint) : Bool :=
  fieldMatches cr.minute t.minute && fieldMatches cr.hour t.hour &&
    fieldMatches cr.month t.month &&
    (match cr.dom, cr.dow with
     | .exact a, .exact b => t.dom == a || t.dow == b
     | _, _ => fieldMatches cr.dom t.dom && fieldMatches cr.dow t.dow)

/-- The event surfaces a workflow can react to.  The constructors beyond the
    first three stand for further event kinds a workflow could subscribe to;
    the trigger section of this workflow has keys only for push,
    pull_request and schedule, so only those can fire it. -/
inductive Event
  | push (branch : String)
  | pull_request (baseBranch : String)
  | schedule (t : TimePoint)
  | workflow_dispatch
  | release
  | issues
deriving DecidableEq

/-- Whether any pattern in the filter list matches the branch. -/
def branchListMatches (pats : List String) (b : String) : Bool :=
  pats.any (fun p => globMatch p b)

/-- Whether an event starts the workflow, per its trigger section. -/
def OnTriggers.fires (o : OnTriggers) : Event → Bool
  | .push b => branchListMatches o.pushBranches b
  | .pull_request b => branchListMatches o.prBranches b
  | .schedule t =>
      o.schedules.any (fun s =>
        match parseCron s with
        | some cr => cronMatches cr t
        | none => false)
  | _ => false

/-! ## The concrete workflow, transcribed from the source file

    Script text is recorded verbatim where a claim reads it or where it is
    plain shell; the three scripts that embed expression interpolation or
    awk programs are elided as none, since no claim depends on their text. -/

/-- Condition of the install-main-dependencies steps: the ref does not start
    with refs/heads/stable and the base ref does not start with stable/. -/
def notStableCond : BExpr :=
  .and (.not (.startsWithRef "refs/heads/stable"))
       (.not (.startsWithBaseRef "stable/"))

/-- The not-cancelled condition carried by the check steps. -/
def notCancelledCond : BExpr := .not .cancelledFn

/-- Condition of the Coverage combine step of the MachineLearning job:
    matrix.os equals ubuntu-latest and matrix.python-version equals the
    number 3.9. -/
def covCombineCond : BExpr :=
  .and (.osEq "ubuntu-latest") (.pvEqNum ⟨3, 9, 1⟩)

/-- Condition shared by the stable-tutorials build and upload steps:
    matrix.python-version equals 3.9, the ref does not start with
    refs/heads/stable, and the base ref does not start with stable/.  The
    source conjoins left to right. -/
def py39NotStableCond : BExpr :=
  .and (.and (.pvEqNum ⟨3, 9, 1⟩) (.not (.startsWithRef "refs/heads/stable")))
       (.not (.startsWithBaseRef "stable/"))

/-- Matrix of the Checks job. -/
def checksMatrix : JobMatrix := ⟨["ubuntu-latest"], ["3.9"], []⟩

/-- The Checks job. -/
def checksJob : Job where
  matrix := checksMatrix
  steps :=
    [ { name := some [.lit "Print Concurrency Group"],
        runText := some
          ["echo -e \"\\033[31;1;4mConcurrency Group\\033[0m\"",
           "echo -e \"$CONCURRENCY_GROUP\\n\""] },
      { uses := some "actions/checkout@v4" },
      { uses := some "actions/setup-python@v5" },
      { uses := some "./.github/actions/install-main-dependencies",
        condIf := some notStableCond },
      { uses := some "./.github/actions/install-machine-learning" },
      { name := some [.lit "Install Dependencies"],
        runText := some
          ["pip install torchvision",
           "sudo apt-get -y install pandoc graphviz",
           "sudo apt-get -y install python3-enchant",
           "sudo apt-get -y install hunspell-en-us",
           "pip install pyenchant",
           "echo \"earliest_version: 0.1.0\" >> releasenotes/config.yaml"] },
      { runText := some ["pip check"],
        condIf := some notCancelledCond },
      { name := some [.lit "Copyright Check"],
        runText := some ["python tools/check_copyright.py -check"],
        condIf := some notCancelledCond },
      { runText := some ["make spell"],
        condIf := some notCancelledCond },
      { name := some [.lit "Style Check"],
        runText := some ["make clean_sphinx", "make style"],
        condIf := some notCancelledCond },
      { name := some [.lit "Run make html"],
        runText := some
          ["make clean_sphinx",
           "make html",
           "cd docs/_build/html",
           "mkdir artifacts",
           "tar -zcvf artifacts/documentation.tar.gz --exclude=./artifacts ."],
        condIf := some notCancelledCond },
      { name := some [.lit "Run upload documentation"],
        uses := some "actions/upload-artifact@v4",
        artName := some [.lit "documentation"],
        artPath := some "docs/_build/html/artifacts/documentation.tar.gz",
        condIf := some notCancelledCond },
      { runText := some ["make doctest"],
        condIf := some notCancelledCond } ]

/-- Matrix of the MachineLearning job: ubuntu across five versions, plus
    four include entries for macos and windows at 3.9 and 3.13. -/
def mlMatrix : JobMatrix :=
  ⟨["ubuntu-latest"],
   ["3.9", "3.10", "3.11", "3.12", "3.13"],
   [⟨"macos-latest", "3.9"⟩, ⟨"macos-latest", "3.13"⟩,
    ⟨"windows-latest", "3.9"⟩, ⟨"windows-latest", "3.13"⟩]⟩

/-- The Coverage combine step of the MachineLearning job. -/
def covCombineStep : Step where
  name := some [.lit "Coverage combine"]
  runText := some ["coverage3 combine", "mv .coverage ./ci-artifact-data/ml.dat"]
  condIf := some covCombineCond

/-- The interpolated artifact name of the MachineLearning upload step:
    matrix.os, a dash, matrix.python-version. -/
def uploadNameParts : List NamePart := [.matrixOs, .lit "-", .matrixPv]

/-- The MachineLearning job. -/
def mlJob : Job where
  matrix := mlMatrix
  steps :=
    [ { uses := some "actions/checkout@v4" },
      { uses := some "actions/setup-python@v5" },
      { uses := some "./.github/actions/install-main-dependencies",
        condIf := some notStableCond },
      { uses := some "./.github/actions/install-machine-learning" },
      { runText := some ["make lint"] },
      { runText := some ["make mypy"],
        condIf := some notCancelledCond },
      { name := some [.lit "Machine Learning Unit Tests under Python ", .matrixPv],
        uses := some "./.github/actions/run-tests",
        condIf := some notCancelledCond },
      { name := some [.lit "Deprecation Messages"],
        runText := some
          ["mkdir ./ci-artifact-data",
           "python tools/extract_deprecation.py -file out.txt -output ./ci-artifact-data/ml.dep"] },
      covCombineStep,
      { uses := some "actions/upload-artifact@v4",
        artName := some uploadNameParts,
        artPath := some "./ci-artifact-data/*" },
      { name := some [.lit "Machine Learning Unit Tests without torch/sparse under Python ",
                      .matrixPv],
        condIf := some notCancelledCond } ]

/-- Matrix of the Tutorials job. -/
def tutMatrix : JobMatrix := ⟨["ubuntu-latest"], ["3.9", "3.13"], []⟩

/-- The stable-tutorials build step of the Tutorials job. -/
def stableBuildStep : Step where
  name := some [.lit "Run stable tutorials"]
  condIf := some py39NotStableCond

/-- The stable-tutorials upload step of the Tutorials job. -/
def stableUploadStep : Step where
  name := some [.lit "Run upload stable tutorials"]
  uses := some "actions/upload-artifact@v4"
  artName := some [.lit "tutorials-stable", .matrixPv]
  artPath := some "docs/_build/html/artifacts/tutorials.tar.gz"
  condIf := some py39NotStableCond

/-- The Tutorials job. -/
def tutJob : Job where
  matrix := tutMatrix
  steps :=
    [ { uses := some "actions/checkout@v4" },
      { uses := some "actions/setup-python@v5" },
      { uses := some "./.github/actions/install-main-dependencies",
        condIf := some notStableCond },
      { uses := some "./.github/actions/install-machine-learning" },
      { name := some [.lit "Install Dependencies"],
        runText := some
          ["pip install jupyter",
           "pip install torchvision",
           "sudo apt-get install -y pandoc graphviz"] },
      { name := some [.lit "Run Machine Learning Tutorials"],
        runText := some
          ["echo \"earliest_version: 0.1.0\" >> releasenotes/config.yaml",
           "make html",
           "cd docs/_build/html",
           "mkdir artifacts",
           "tar -zcvf artifacts/tutorials.tar.gz --exclude=./artifacts ."] },
      { name := some [.lit "Run upload tutorials"],
        uses := some "actions/upload-artifact@v4",
        artName := some [.lit "tutorials", .matrixPv],
        artPath := some "docs/_build/html/artifacts/tutorials.tar.gz" },
      stableBuildStep,
      stableUploadStep ]

/-- Matrix of the aggregation job: no os axis, one python version. -/
def depMatrix : JobMatrix := ⟨[], ["3.9"], []⟩

/-- The nine dep files the Combined Deprecation Messages step sorts, in
    source order. -/
def depFiles : List String :=
  ["/tmp/u39/ml.dep", "/tmp/u310/ml.dep", "/tmp/u311/ml.dep",
   "/tmp/u312/ml.dep", "/tmp/u313/ml.dep", "/tmp/m39/ml.dep",
   "/tmp/m313/ml.dep", "/tmp/w39/ml.dep", "/tmp/w313/ml.dep"]

/-- Shell commands of the informational deprecation step: a case-folding
    unique sort over files, and the or-true combinator that discards a
    failure of its left command. -/
inductive ShCmd
  | sortFU (files : List String)
  | orTrue (c : ShCmd)
deriving DecidableEq

/-- Shell text of a command. -/
def ShCmd.render : ShCmd → String
  | .sortFU fs => "sort -f -u " ++ String.intercalate " " fs
  | .orTrue c => c.render ++ " || true"

/-- Exit status of the shell builtin true. -/
def trueExit : Nat := 0

/-- Exit status of a command, given the exit status of the underlying sort:
    the or combinator yields zero when its left side does, and otherwise the
    status of the builtin true. -/
def ShCmd.exit (sortExit : Nat) : ShCmd → Nat
  | .sortFU _ => sortExit
  | .orTrue c => if c.exit sortExit = 0 then 0 else trueExit

/-- The command of the Combined Deprecation Messages step. -/
def combinedDepCmd : ShCmd := .orTrue (.sortFU depFiles)

/-- The Deprecation_Messages_and_Coverage job. -/
def depJob : Job where
  needs := [.Checks, .MachineLearning, .Tutorials]
  matrix := depMatrix
  steps :=
    [ { uses := some "actions/checkout@v4" },
      { uses := some "actions/setup-python@v5" },
      { uses := some "actions/download-artifact@v4",
        artName := some [.lit "ubuntu-latest-3.9"], artPath := some "/tmp/u39" },
      { uses := some "actions/download-artifact@v4",
        artName := some [.lit "ubuntu-latest-3.10"], artPath := some "/tmp/u310" },
      { uses := some "actions/download-artifact@v4",
        artName := some [.lit "ubuntu-latest-3.11"], artPath := some "/tmp/u311" },
      { uses := some "actions/download-artifact@v4",
        artName := some [.lit "ubuntu-latest-3.12"], artPath := some "/tmp/u312" },
      { uses := some "actions/download-artifact@v4",
        artName := some [.lit "ubuntu-latest-3.13"], artPath := some "/tmp/u313" },
      { uses := some "actions/download-artifact@v4",
        artName := some [.lit "macos-latest-3.9"], artPath := some "/tmp/m39" },
      { uses := some "actions/download-artifact@v4",
        artName := some [.lit "macos-latest-3.13"], artPath := some "/tmp/m313" },
      { uses := some "actions/download-artifact@v4",
        artName := some [.lit "windows-latest-3.9"], artPath := some "/tmp/w39" },
      { uses := some "actions/download-artifact@v4",
        artName := some [.lit "windows-latest-3.13"], artPath := some "/tmp/w313" },
      { name := some [.lit "Install Dependencies"],
        runText := some ["pip install -U coverage coveralls diff-cover"] },
      { name := some [.lit "Combined Deprecation Messages"],
        runText := some [ShCmd.render combinedDepCmd] },
      { name := some [.lit "Coverage combine"],
        runText := some ["coverage3 combine /tmp/u39/ml.dat"] },
      { name := some [.lit "Upload to Coveralls"],
        runText := some ["coveralls --service=github"] } ]

/-- The whole workflow, from the source file. -/
def mlWorkflow : Workflow where
  name := "Machine Learning Unit Tests"
  onTrig := ⟨["main", "stable/**"], ["main", "stable/**"], ["0 1 * * *"]⟩
  concurrency :=
    ⟨[.repository, .lit "-", .ref, .lit "-", .head_ref, .lit "-", .workflow], true⟩
  jobs := fun j =>
    match j with
    | .Checks => checksJob
    | .MachineLearning => mlJob
    | .Tutorials => tutJob
    | .Deprecation_Messages_and_Coverage => depJob

/-! ## Run semantics used by the claims -/

/-- All jobs of the workflow. -/
def jobList : List JobId :=
  [.Checks, .MachineLearning, .Tutorials, .Deprecation_Messages_and_Coverage]

/-- A run assigns each job a start and an end instant.  A schedule is valid
    for a workflow when every job starts no later than it ends and starts
    strictly after every job in its needs list has ended: the hosted runner
    starts a job only once all its needs have completed. -/
def validSchedule (w : Workflow) (sched : JobId → Nat × Nat) : Bool :=
  jobList.all fun j =>
    (decide ((sched j).1 ≤ (sched j).2)) &&
      (w.jobs j).needs.all fun n => decide ((sched n).2 < (sched j).1)

/-- Whether two closed intervals share an instant. -/
def intervalsOverlap (a b : Nat × Nat) : Bool :=
  decide (a.1 ≤ b.2) && decide (b.1 ≤ a.2)

/-- Whether a newly started run cancels an in-progress run: cancel in
    progress must be set and the two concurrency group strings must agree. -/
def cancelsNew (w : Workflow) (gOld gNew : GhCtx) : Bool :=
  w.concurrency.cancelInProgress &&
    (renderGroup gOld w.concurrency.group == renderGroup gNew w.concurrency.group)

/-- Artifact names requested by the download steps of a job. -/
def downloadNames (j : Job) : List (List NamePart) :=
  j.steps.filterMap fun st =>
    if st.uses == some "actions/download-artifact@v4" then st.artName else none

/-- Download paths of the download steps of a job. -/
def downloadPaths (j : Job) : List String :=
  j.steps.filterMap fun st =>
    if st.uses == some "actions/download-artifact@v4" then st.artPath else none

/-- Artifact names uploaded by a job, one list entry per upload step. -/
def uploadNames (j : Job) : List (List NamePart) :=
  j.steps.filterMap fun st =>
    if st.uses == some "actions/upload-artifact@v4" then st.artName else none

/-- Files present in the ci-artifact-data directory a MachineLearning
    matrix combination uploads, in a run where no step failed and the run
    was not cancelled: the Deprecation Messages step always writes ml.dep,
    and the Coverage combine step moves the combined coverage file to
    ml.dat exactly when its condition lets it run. -/
def mlArtifactFiles (g : GhCtx) (c : Combo) : List String :=
  "ml.dep" ::
    (if stepRuns g c false false covCombineStep then ["ml.dat"] else [])

/-- Context-free form of the Coverage combine condition; it agrees with
    stepRuns on covCombineStep definitionally, since that condition reads
    only the matrix combination. -/
def covPure (c : Combo) : Bool :=
  (c.os == "ubuntu-latest") && (strToDecNum c.pv).numEq ⟨3, 9, 1⟩

/-- Context-free form of mlArtifactFiles, equal to it definitionally. -/
def mlArtifactFilesPure (c : Combo) : List String :=
  "ml.dep" :: (if covPure c then ["ml.dat"] else [])

/-- Whether the stable-tutorials archive gets built: the build step runs
    and its script, which writes the archive as its last action, succeeds.
    The flag buildFails says whether the script would fail if run. -/
def archiveBuilt (g : GhCtx) (c : Combo) (priorFailed cancelled buildFails : Bool) : Bool :=
  stepRuns g c priorFailed cancelled stableBuildStep && !buildFails

/-- Whether the stable-tutorials upload step runs, with the upload step
    placed immediately after the build step: a failure of the build step
    joins the prior-failure flag the upload condition sees. -/
def uploadRunsStable (g : GhCtx) (c : Combo) (priorFailed cancelled buildFails : Bool) : Bool :=
  stepRuns g c
    (priorFailed || (stepRuns g c priorFailed cancelled stableBuildStep && buildFails))
    cancelled stableUploadStep

end CI

namespace Notebook

/-! ## The pegasos tutorial notebook, src/docs/tutorials/07_pegasos_qsvc.ipynb

    The notebook is a straight-line script.  The constants below transcribe
    the literals of its data-preparation cells, and pegasosCalls records, in
    source order, every call the notebook makes on the PegasosQSVC object
    together with the shapes of the arrays passed. -/

/-- make_blobs is called with n_samples set to 20. -/
def nSamples : Nat := 20

/-- make_blobs is called with n_features set to 2; the notebook also sets
    the qubit count to this value. -/
def nFeatures : Nat := 2

/-- train_test_split is called with train_size set to 15. -/
def trainSize : Nat := 15

/-- Sample counts produced by train_test_split: the requested train size
    and the remaining samples. -/
def splitCounts (n tr : Nat) : Nat × Nat := (tr, n - tr)

/-- Number of test samples. -/
def testSize : Nat := (splitCounts nSamples trainSize).2

/-- Row count of the meshgrid feature array: np.meshgrid over two
    length-g axes yields two g-by-g arrays, ravel flattens each to length
    g * g, and column_stack pairs them into a two-column array. -/
def meshgridRows (g : Nat) : Nat := g * g

/-- One call on the classifier object, with the shape of the features
    array (rows, columns) and, for fit and score, the length of the labels
    vector. -/
inductive ECall
  | fit (featuresShape : Nat × Nat) (labelsLen : Nat)
  | score (featuresShape : Nat × Nat) (labelsLen : Nat)
  | predict (featuresShape : Nat × Nat)
deriving DecidableEq

/-- Whether a call is a fit. -/
def ECall.isFit : ECall → Bool
  | .fit _ _ => true
  | _ => false

/-- Whether a call is a score. -/
def ECall.isScore : ECall → Bool
  | .score _ _ => true
  | _ => false

/-- Whether a call is a predict. -/
def ECall.isPredict : ECall → Bool
  | .predict _ => true
  | _ => false

/-- The calls the notebook makes on pegasos_qsvc, in source order: fit on
    the training arrays, then score on the test arrays, then predict on the
    meshgrid array.  The parameter g is the number of grid points per axis
    of the plotting mesh. -/
def pegasosCalls (g : Nat) : List ECall :=
  [.fit ((splitCounts nSamples trainSize).1, nFeatures) (splitCounts nSamples trainSize).1,
   .score ((splitCounts nSamples trainSize).2, nFeatures) (splitCounts nSamples trainSize).2,
   .predict (meshgridRows g, nFeatures)]

end Notebook

open CI Notebook

/-! ## Helper lemmas shared by the claim theorems -/

/-- The cron string of the schedule trigger parses to: minute zero, hour
    one, every day of month, every month, every day of week. -/
theorem parseDaily :
    parseCron "0 1 * * *" = some ⟨.exact 0, .exact 1, .star, .star, .star⟩ := by
  decide

/-- The schedule trigger fires at a time point exactly when the minute is
    zero and the hour is one. -/
theorem firesDaily (t : TimePoint) :
    mlWorkflow.onTrig.fires (.schedule t) = (t.minute == 0 && t.hour == 1) := by
  simp only [OnTriggers.fires, mlWorkflow, List.any_cons, List.any_nil, Bool.or_false]
  rw [parseDaily]
  simp [cronMatches, fieldMatches]

/-- Boolean identity behind C10: running a guarded upload step directly
    after an identically guarded build step is the same as the build step
    having run and succeeded.  E is the value of the shared condition, pf
    the prior-failure flag, cf the cancellation flag, bf whether the build
    script fails when run. -/
theorem seqUploadEq (E pf cf bf : Bool) :
    ((!(pf || (((!pf && !cf) && E) && bf)) && !cf) && E) = (((!pf && !cf) && E) && !bf) := by
  cases pf <;> cases cf <;> cases bf <;> cases E <;> rfl

/-! ## Claim theorems -/

/-- C1: in every valid run schedule, the Deprecation_Messages_and_Coverage
    job starts only after each of Checks, MachineLearning and Tutorials has
    ended, and its execution interval overlaps none of theirs. -/
theorem C1_aggregation_after_prereqs (sched : JobId → Nat × Nat)
    (h : validSchedule mlWorkflow sched = true) :
    ∀ j ∈ [JobId.Checks, .MachineLearning, .Tutorials],
      (sched j).2 < (sched .Deprecation_Messages_and_Coverage).1 ∧
      intervalsOverlap (sched j) (sched .Deprecation_Messages_and_Coverage) = false := by
  simp only [validSchedule, jobList, List.all_cons, List.all_nil, Bool.and_true,
    Bool.and_eq_true, decide_eq_true_eq, mlWorkflow] at h
  intro j hj
  simp only [List.mem_cons, List.not_mem_nil, or_false] at hj
  have hn := h.2.2.2.2
  simp only [depJob, List.all_cons, List.all_nil, Bool.and_true, Bool.and_eq_true,
    decide_eq_true_eq] at hn
  have hov : ∀ a : Nat × Nat,
      a.2 < (sched JobId.Deprecation_Messages_and_Coverage).1 →
      intervalsOverlap a (sched JobId.Deprecation_Messages_and_Coverage) = false := by
    intro a ha
    have h2 : decide ((sched JobId.Deprecation_Messages_and_Coverage).1 ≤ a.2) = false := by
      simp only [decide_eq_false_iff_not, not_le]
      omega
    simp [intervalsOverlap, h2]
  rcases hj with rfl | rfl | rfl
  · exact ⟨hn.1, hov _ hn.1⟩
  · exact ⟨hn.2.1, hov _ hn.2.1⟩
  · exact ⟨hn.2.2, hov _ hn.2.2⟩

/-- A concrete schedule: the three prerequisite jobs run over the interval
    from zero to one, the aggregation job from four to five. -/
def schedWit : JobId → Nat × Nat
  | .Deprecation_Messages_and_Coverage => (4, 5)
  | _ => (0, 1)

/-- Witness for C1: the concrete schedule schedWit is valid, and the
    theorem applies to it at the Checks job. -/
theorem C1_witness :
    validSchedule mlWorkflow schedWit = true ∧
    ((schedWit JobId.Checks).2 < (schedWit .Deprecation_Messages_and_Coverage).1 ∧
      intervalsOverlap (schedWit JobId.Checks)
        (schedWit .Deprecation_Messages_and_Coverage) = false) :=
  ⟨by decide, C1_aggregation_after_prereqs schedWit (by decide) JobId.Checks (by decide)⟩

/-- C2: the nine names the aggregation job downloads are literal, and read
    in step order they are exactly the names the MachineLearning upload
    step produces across the nine matrix combinations in matrix order; the
    names are pairwise distinct, so each uploaded name is requested by
    exactly one download step and each download step names exactly one
    combination. -/
theorem C2_artifact_name_bijection :
    (downloadNames depJob).map litName =
      mlMatrix.combos.map (fun c => some (renderName c uploadNameParts)) ∧
    ((downloadNames depJob).map litName).Nodup ∧
    (downloadNames depJob).length = 9 ∧
    mlMatrix.combos.length = 9 ∧
    uploadNames mlJob = [uploadNameParts] ∧
    mlJob.matrix = mlMatrix :=
  ⟨by decide, by decide, by decide, by decide, by decide, rfl⟩

/-- C3: the seven Checks steps after dependency installation are pip check,
    Copyright Check, make spell, Style Check, make html, the documentation
    upload and make doctest; each carries the not-cancelled condition, and
    each still runs when an earlier step has failed and the run is not
    cancelled. -/
theorem C3_checks_run_after_failure (g : GhCtx) (c : Combo) :
    (checksJob.steps.drop 6).length = 7 ∧
    (checksJob.steps.drop 6).map (fun st => (st.name, st.runText, st.uses)) =
      [(none, some ["pip check"], none),
       (some [.lit "Copyright Check"], some ["python tools/check_copyright.py -check"], none),
       (none, some ["make spell"], none),
       (some [.lit "Style Check"], some ["make clean_sphinx", "make style"], none),
       (some [.lit "Run make html"],
        some ["make clean_sphinx", "make html", "cd docs/_build/html", "mkdir artifacts",
              "tar -zcvf artifacts/documentation.tar.gz --exclude=./artifacts ."], none),
       (some [.lit "Run upload documentation"], none, some "actions/upload-artifact@v4"),
       (none, some ["make doctest"], none)] ∧
    ((checksJob.steps.drop 6).all fun st => st.condIf == some notCancelledCond) = true ∧
    ((checksJob.steps.drop 6).all fun st => stepRuns g c true false st) = true :=
  ⟨by decide, by decide, by decide, rfl⟩

/-- C4: the trigger section consists of push and pull_request filters for
    main and the stable branches and the single daily cron entry; pushes
    and pull requests fire exactly on matching branches, the schedule fires
    exactly at minute zero of hour one, no other event kind fires the
    workflow, and scanning every minute of any day finds exactly the one
    firing time. -/
theorem C4_trigger_surface (b : String) (t : TimePoint) :
    mlWorkflow.onTrig = ⟨["main", "stable/**"], ["main", "stable/**"], ["0 1 * * *"]⟩ ∧
    mlWorkflow.onTrig.fires (.push b) = (globMatch "main" b || globMatch "stable/**" b) ∧
    mlWorkflow.onTrig.fires (.pull_request b) = (globMatch "main" b || globMatch "stable/**" b) ∧
    mlWorkflow.onTrig.fires (.schedule t) = (t.minute == 0 && t.hour == 1) ∧
    mlWorkflow.onTrig.fires .workflow_dispatch = false ∧
    mlWorkflow.onTrig.fires .release = false ∧
    mlWorkflow.onTrig.fires .issues = false ∧
    ((List.range 24).all fun hr => (List.range 60).all fun mi =>
      mlWorkflow.onTrig.fires (.schedule ⟨mi, hr, t.dom, t.month, t.dow⟩) ==
        ((mi == 0) && (hr == 1))) = true := by
  refine ⟨rfl, ?_, ?_, firesDaily t, rfl, rfl, rfl, ?_⟩
  · simp [OnTriggers.fires, branchListMatches, mlWorkflow, List.any]
  · simp [OnTriggers.fires, branchListMatches, mlWorkflow, List.any]
  · simp only [List.all_eq_true]
    intro hr _ mi _
    simp [firesDaily]

/-- C5: the concurrency group concatenates the repository, ref, head ref
    and workflow name separated by dashes, cancel in progress is set, and
    two runs agreeing on those four context fields land in the same group,
    so the newer cancels the older. -/
theorem C5_concurrency_cancels (g1 g2 : GhCtx)
    (h1 : g1.repository = g2.repository) (h2 : g1.ref = g2.ref)
    (h3 : g1.head_ref = g2.head_ref) (h4 : g1.workflow = g2.workflow) :
    mlWorkflow.concurrency.group =
      [.repository, .lit "-", .ref, .lit "-", .head_ref, .lit "-", .workflow] ∧
    mlWorkflow.concurrency.cancelInProgress = true ∧
    cancelsNew mlWorkflow g1 g2 = true := by
  refine ⟨rfl, rfl, ?_⟩
  simp [cancelsNew, renderGroup, mlWorkflow, h1, h2, h3, h4]

/-- Witness for C5 at two identical concrete contexts. -/
theorem C5_witness :
    cancelsNew mlWorkflow
      ⟨"qiskit-machine-learning", "refs/heads/main", "", "", "Machine Learning Unit Tests"⟩
      ⟨"qiskit-machine-learning", "refs/heads/main", "", "", "Machine Learning Unit Tests"⟩ = true :=
  (C5_concurrency_cancels _ _ rfl rfl rfl rfl).2.2

/-- C6: the MachineLearning matrix is the product of the single-entry os
    axis ubuntu-latest with the five versions, extended by exactly the four
    include points for macos-latest and windows-latest at versions 3.9 and
    3.13; the Tutorials matrix has the same single-entry os axis and no
    includes; no non-Linux platform occurs in any product axis. -/
theorem C6_matrix_axes :
    mlJob.matrix = mlMatrix ∧
    tutJob.matrix = tutMatrix ∧
    mlMatrix.oses = ["ubuntu-latest"] ∧
    mlMatrix.pvs = ["3.9", "3.10", "3.11", "3.12", "3.13"] ∧
    mlMatrix.extra =
      [⟨"macos-latest", "3.9"⟩, ⟨"macos-latest", "3.13"⟩,
       ⟨"windows-latest", "3.9"⟩, ⟨"windows-latest", "3.13"⟩] ∧
    mlMatrix.combos =
      (mlMatrix.oses.flatMap fun o => mlMatrix.pvs.map fun v => ⟨o, v⟩) ++ mlMatrix.extra ∧
    mlMatrix.combos.length = 9 ∧
    (mlMatrix.extra.all fun c =>
      (c.os == "macos-latest" || c.os == "windows-latest") &&
        (c.pv == "3.9" || c.pv == "3.13")) = true ∧
    (mlMatrix.oses.all fun o => o == "ubuntu-latest") = true ∧
    (tutMatrix.oses.all fun o => o == "ubuntu-latest") = true ∧
    tutMatrix.extra = [] :=
  ⟨rfl, rfl, by decide, by decide, by decide, by decide, by decide, by decide,
   by decide, by decide, by decide⟩

/-- C7: the notebook calls fit exactly once, as the first classifier call;
    score and predict come only after it; fit gets the training arrays of
    fifteen samples with two features and fifteen labels, score the test
    arrays of five samples, and predict the meshgrid array of g times g
    rows and two columns. -/
theorem C7_estimator_call_order (g : Nat) :
    (pegasosCalls g).length = 3 ∧
    (pegasosCalls g).countP ECall.isFit = 1 ∧
    (pegasosCalls g).findIdx ECall.isFit = 0 ∧
    (pegasosCalls g).findIdx ECall.isScore = 1 ∧
    (pegasosCalls g).findIdx ECall.isPredict = 2 ∧
    (pegasosCalls g)[0]? = some (.fit (15, 2) 15) ∧
    (pegasosCalls g)[1]? = some (.score (5, 2) 5) ∧
    (pegasosCalls g)[2]? = some (.predict (g * g, 2)) :=
  ⟨rfl, rfl, rfl, rfl, rfl, rfl, rfl, rfl⟩

set_option maxRecDepth 8000 in
/-- C8: the Combined Deprecation Messages step runs exactly the sort over
    the nine downloaded dep files suffixed with or-true, and that command
    exits with status zero whatever the exit status of the sort itself. -/
theorem C8_dep_sort_non_fatal (e : Nat) :
    (depJob.steps.filterMap fun st =>
      if st.name == some [NamePart.lit "Combined Deprecation Messages"]
      then st.runText else none) = [[ShCmd.render combinedDepCmd]] ∧
    ShCmd.render combinedDepCmd =
      "sort -f -u /tmp/u39/ml.dep /tmp/u310/ml.dep /tmp/u311/ml.dep /tmp/u312/ml.dep /tmp/u313/ml.dep /tmp/m39/ml.dep /tmp/m313/ml.dep /tmp/w39/ml.dep /tmp/w313/ml.dep || true" ∧
    depFiles = (downloadPaths depJob).map (fun p => p ++ "/ml.dep") ∧
    combinedDepCmd.exit e = 0 := by
  refine ⟨by decide, by decide, by decide, ?_⟩
  simp [combinedDepCmd, ShCmd.exit, trueExit]

/-- C9: across the nine MachineLearning matrix combinations the Coverage
    combine step runs exactly for ubuntu-latest at version 3.9, so only the
    artifact of that combination contains ml.dat while every other
    combination uploads only ml.dep; that artifact is named
    ubuntu-latest-3.9, the aggregation job downloads it to /tmp/u39, and
    its coverage combine reads exactly /tmp/u39/ml.dat. -/
theorem C9_single_coverage_artifact (g : GhCtx) :
    (mlMatrix.combos.filter fun c => stepRuns g c false false covCombineStep) =
      [⟨"ubuntu-latest", "3.9"⟩] ∧
    (mlMatrix.combos.filter fun c => (mlArtifactFiles g c).contains "ml.dat") =
      [⟨"ubuntu-latest", "3.9"⟩] ∧
    ((mlMatrix.combos.filter fun c => !(c == ⟨"ubuntu-latest", "3.9"⟩)).all
      fun c => mlArtifactFiles g c == ["ml.dep"]) = true ∧
    renderName ⟨"ubuntu-latest", "3.9"⟩ uploadNameParts = "ubuntu-latest-3.9" ∧
    (depJob.steps.filterMap fun st =>
      if st.artName == some [NamePart.lit "ubuntu-latest-3.9"]
      then st.artPath else none) = ["/tmp/u39"] ∧
    (depJob.steps.filterMap fun st =>
      if st.name == some [NamePart.lit "Coverage combine"]
      then st.runText else none) = [["coverage3 combine /tmp/u39/ml.dat"]] := by
  have hs : (fun c => stepRuns g c false false covCombineStep) = covPure := rfl
  have hf : mlArtifactFiles g = mlArtifactFilesPure := rfl
  refine ⟨?_, ?_, ?_, by decide, by decide, by decide⟩
  · rw [hs]; decide
  · rw [hf]; decide
  · rw [hf]; decide

/-- C10: the stable-tutorials build and upload steps of the Tutorials job
    are adjacent and carry the same condition, and under the step
    semantics the upload step runs exactly when the build step ran and its
    script succeeded, for every context, combination and status. -/
theorem C10_stable_upload_guard (g : GhCtx) (c : Combo)
    (priorFailed cancelled buildFails : Bool) :
    stableBuildStep.condIf = some py39NotStableCond ∧
    stableUploadStep.condIf = some py39NotStableCond ∧
    tutJob.steps.drop 7 = [stableBuildStep, stableUploadStep] ∧
    (tutJob.steps.filterMap fun st =>
      if st.name == some [NamePart.lit "Run stable tutorials"]
      then st.condIf else none) = [py39NotStableCond] ∧
    (tutJob.steps.filterMap fun st =>
      if st.name == some [NamePart.lit "Run upload stable tutorials"]
      then st.condIf else none) = [py39NotStableCond] ∧
    uploadRunsStable g c priorFailed cancelled buildFails =
      archiveBuilt g c priorFailed cancelled buildFails :=
  ⟨rfl, rfl, by decide, by decide, by decide,
   seqUploadEq (py39NotStableCond.eval g c cancelled) priorFailed cancelled buildFails⟩
